import Mathlib

/-!
# Verification of the `edpop-explorer` core contracts

A shallow embedding of the core of the `edpop_explorer` Python package
(`reader.py`, `record.py`, `fields.py`) and proofs about it.

Python strings that undergo byte-level processing (percent-encoding) are
modelled as lists of natural numbers (their UTF-8 bytes, hence `< 256` where
relevant).  Python exceptions are modelled with `Except` over an explicit
error type.  RDF graphs are modelled as lists of triples over a `Node` type.
-/

set_option autoImplicit false

namespace EdpopExplorer

/-- The exception kinds that the modelled code can raise.  `keyError` and
`valueError` model Python's built-in `KeyError` and `ValueError`;
`readerError`, `notFoundError`, `fieldError` and `recordError` model the
package's own exception classes (`NotFoundError` derives from
`ReaderError` in the source, which we keep as a separate constructor and
relate where needed). -/
inductive PyError where
  | readerError
  | notFoundError
  | fieldError
  | recordError
  | keyError
  | valueError
  deriving DecidableEq, Repr

/-- Bytes of a Lean string, used to name concrete IRIs in the model.  This
maps every character to its code point, which is an injective encoding
sufficient for naming distinct RDF vocabulary terms. -/
def strBytes (s : String) : List Nat :=
  s.data.map Char.toNat

/-- RDF nodes: IRIs (as byte strings), blank nodes (with a numeric id),
plain string literals, boolean literals, and datatype-tagged literals. -/
inductive Node where
  | uri (u : List Nat)
  | bnode (id : Nat)
  | litStr (s : String)
  | litBool (b : Bool)
  | litTyped (s : String) (datatype : List Nat)
  deriving DecidableEq, Repr

/-- An RDF triple: subject, predicate, object. -/
abbrev Triple := Node × Node × Node

/-- An RDF graph, modelled as the list of triples added to it. -/
abbrev Graph := List Triple

/-! ## Percent-encoding (`urllib.parse.quote` / `unquote`)

`Reader.identifier_to_iri` uses `quote(identifier)` and
`Reader.iri_to_identifier` uses `unquote(...)`.  We model both at the byte
level.  `quote`'s default `safe` parameter is `'/'`; unreserved bytes are
ASCII letters, digits and `_.-~`. -/

/-- Bytes `quote` leaves unescaped: ASCII alphanumerics, `_.-~` and the
default safe byte `/`. -/
def isSafeByte (b : Nat) : Bool :=
  (48 ≤ b && b ≤ 57) || (65 ≤ b && b ≤ 90) || (97 ≤ b && b ≤ 122) ||
    b == 45 || b == 46 || b == 95 || b == 126 || b == 47

/-- Uppercase hexadecimal digit for a value below 16, as a byte. -/
def hexUpper (d : Nat) : Nat :=
  if d < 10 then 48 + d else 55 + d

/-- Whether a byte is an ASCII hexadecimal digit. -/
def isHexByte (b : Nat) : Bool :=
  (48 ≤ b && b ≤ 57) || (65 ≤ b && b ≤ 70) || (97 ≤ b && b ≤ 102)

/-- Numeric value of an ASCII hexadecimal digit byte. -/
def hexVal (b : Nat) : Nat :=
  if 48 ≤ b && b ≤ 57 then b - 48
  else if 65 ≤ b && b ≤ 70 then b - 55
  else if 97 ≤ b && b ≤ 102 then b - 87
  else 0

/-- Byte-level model of `urllib.parse.quote` with the default `safe='/'`:
safe bytes are kept, every other byte `b` becomes `%XY` with `XY` the
uppercase hexadecimal representation of `b`. -/
def quoteBytes : List Nat → List Nat
  | [] => []
  | b :: rest =>
      (if isSafeByte b then [b]
       else [37, hexUpper (b / 16), hexUpper (b % 16)]) ++ quoteBytes rest

/-- Byte-level model of `urllib.parse.unquote`: a `%` followed by two
hexadecimal digits is decoded to the corresponding byte; a `%` not followed
by two hexadecimal digits is kept literally, as in Python. -/
def unquoteBytes : List Nat → List Nat
  | [] => []
  | [b] => [b]
  | [b, c] => [b, c]
  | b :: h1 :: h2 :: rest =>
      if b = 37 then
        if isHexByte h1 && isHexByte h2 then
          (16 * hexVal h1 + hexVal h2) :: unquoteBytes rest
        else
          37 :: unquoteBytes (h1 :: h2 :: rest)
      else
        b :: unquoteBytes (h1 :: h2 :: rest)

/-! ## Identifier ↔ IRI conversion (`Reader.identifier_to_iri`,
`Reader.iri_to_identifier`)

The class attribute `IRI_PREFIX` is `Optional[str]` (default `None`); the
source checks `isinstance(cls.IRI_PREFIX, str)` and raises `ReaderError`
when it is not a string.  We model it as `Option (List Nat)`. -/

/-- Model of `Reader.identifier_to_iri`: raises `ReaderError` when
`IRI_PREFIX` is not a string, otherwise returns `IRI_PREFIX +
quote(identifier)`. -/
def identifier_to_iri (iriPrefix : Option (List Nat)) (identifier : List Nat) :
    Except PyError (List Nat) :=
  match iriPrefix with
  | none => .error .readerError
  | some p => .ok (p ++ quoteBytes identifier)

/-- Model of `Reader.iri_to_identifier`: raises `ReaderError` when
`IRI_PREFIX` is not a string or when the IRI does not start with the
prefix; otherwise strips the prefix and percent-decodes the rest. -/
def iri_to_identifier (iriPrefix : Option (List Nat)) (iri : List Nat) :
    Except PyError (List Nat) :=
  match iriPrefix with
  | none => .error .readerError
  | some p =>
      if p.isPrefixOf iri then
        .ok (unquoteBytes (iri.drop p.length))
      else
        .error .readerError

/-! ## The `Reader` pagination state machine

Instance state of a `Reader`: the sparse `records` dict (modelled as an
association list in insertion order, as `dict` preserves insertion order
and `records.values()` iterates in that order), `number_of_results`,
`prepared_query` and the private fetch cursor `_fetch_position`.

The abstract method `fetch_range` is modelled as an explicit oracle
parameter: an arbitrary state transformer that also returns the range it
actually fetched. -/

/-- A record as far as the `Reader` machinery is concerned: only the
`identifier` attribute is inspected (by `GetByIdBasedOnQueryMixin`), plus
an opaque payload distinguishing records. -/
structure Rec where
  identifier : Option (List Nat)
  payload : Nat
  deriving DecidableEq, Repr

/-- A Python `range(start, stop)` with the default step 1. -/
structure Rng where
  start : Nat
  stop : Nat
  deriving DecidableEq, Repr

/-- Model of `range(0)`. -/
def Rng.zero : Rng := ⟨0, 0⟩

/-- A prepared query: `PreparedQueryType = Union[str, BasePreparedQuery]`;
we model queries as byte strings, which suffices for every claim below. -/
abbrev Query := List Nat

/-- The mutable instance state of a `Reader`. -/
structure ReaderState where
  records : List (Nat × Rec)
  number_of_results : Option Nat
  prepared_query : Option Query
  fetch_position : Nat
  deriving DecidableEq

/-- The state of a freshly constructed reader (`Reader.__init__` sets
`records = {}`; the other attributes keep their class-level defaults). -/
def ReaderState.init : ReaderState :=
  { records := [], number_of_results := none, prepared_query := none,
    fetch_position := 0 }

/-- Model of `dict.get`: the value stored under a key, if any. -/
def ReaderState.lookup (st : ReaderState) (index : Nat) : Option Rec :=
  (st.records.find? (fun p => p.fst = index)).map Prod.snd

/-- Model of the abstract `fetch_range` method: given the current state and
the requested range, produce the new state and the range actually
fetched. -/
def FetchOracle := ReaderState → Rng → ReaderState × Rng

/-- Model of the property `Reader.fetching_started`. -/
def ReaderState.fetching_started (st : ReaderState) : Prop :=
  st.number_of_results ≠ none

instance (st : ReaderState) : Decidable st.fetching_started := by
  unfold ReaderState.fetching_started; infer_instance

/-- Model of the property `Reader.number_fetched` (`len(self.records)`). -/
def ReaderState.number_fetched (st : ReaderState) : Nat :=
  st.records.length

/-- Model of the property `Reader.fetching_exhausted`. -/
def ReaderState.fetching_exhausted (st : ReaderState) : Prop :=
  st.fetching_started ∧ st.number_of_results = some st.number_fetched

instance (st : ReaderState) : Decidable st.fetching_exhausted := by
  unfold ReaderState.fetching_exhausted; infer_instance

/-- Default of the class attribute `DEFAULT_RECORDS_PER_PAGE`. -/
def DEFAULT_RECORDS_PER_PAGE : Nat := 10

/-- Model of `Reader.fetch`: returns `range(0)` when exhausted, otherwise
requests `range(_fetch_position, _fetch_position + number)` from
`fetch_range` and advances the cursor to the stop of the returned range. -/
def ReaderState.fetch (fr : FetchOracle) (st : ReaderState)
    (number : Option Nat) : Rng × ReaderState :=
  if st.fetching_exhausted then
    (Rng.zero, st)
  else
    let n := number.getD DEFAULT_RECORDS_PER_PAGE
    let (st', rng) := fr st ⟨st.fetch_position, st.fetch_position + n⟩
    (rng, { st' with fetch_position := rng.stop })

/-- The fetch condition of `Reader.get`, exactly as written in the
source: `self.number_of_results is None or self.number_of_results <=
index`. -/
def getFetchCondition : Option Nat → Nat → Bool
  | none, _ => true
  | some n, index => n ≤ index

/-- Model of `Reader.get`: returns `records[index]` if present; otherwise
fetches `range(index, index + 1)` when `allow_fetching` holds together
with `getFetchCondition`, and retries; raises `NotFoundError` when the
record is still absent. -/
def ReaderState.get (fr : FetchOracle) (st : ReaderState) (index : Nat)
    (allow_fetching : Bool) : Except PyError Rec × ReaderState :=
  match st.lookup index with
  | some r => (.ok r, st)
  | none =>
      if allow_fetching && getFetchCondition st.number_of_results index then
        let (st', _) := fr st ⟨index, index + 1⟩
        match st'.lookup index with
        | some r => (.ok r, st')
        | none => (.error .notFoundError, st')
      else
        (.error .notFoundError, st)

/-- Model of `Reader.prepare_query`: sets `prepared_query` to
`transform_query(query)`, unconditionally. -/
def ReaderState.prepare_query (transform : List Nat → Query)
    (st : ReaderState) (query : List Nat) : ReaderState :=
  { st with prepared_query := some (transform query) }

/-- Model of `Reader.set_query`: sets `prepared_query` unconditionally. -/
def ReaderState.set_query (st : ReaderState) (query : Query) : ReaderState :=
  { st with prepared_query := some query }

/-! ## `GetByIdBasedOnQueryMixin.get_by_id` -/

/-- The first record in `records.values()` order whose `identifier` equals
the requested one (`None` identifiers never match, as `None == str` is
false in Python). -/
def findByIdentifier (records : List (Nat × Rec)) (identifier : List Nat) :
    Option Rec :=
  (records.find? (fun p => p.snd.identifier = some identifier)).map Prod.snd

/-- The reader state after the single `fetch()` performed by
`GetByIdBasedOnQueryMixin.get_by_id`: a fresh reader whose query is set to
`_prepare_get_by_id_query(identifier)` and on which `fetch()` was called
once. -/
def mixinFetchState (fr : FetchOracle) (prepare : List Nat → Query)
    (identifier : List Nat) : ReaderState :=
  (ReaderState.fetch fr (ReaderState.init.set_query (prepare identifier))
    none).snd

/-- Model of `GetByIdBasedOnQueryMixin.get_by_id`: construct a fresh
reader, set the adapter-supplied list query, `fetch()` once, raise
`NotFoundError` when `number_of_results == 0`, otherwise return the first
record with the requested identifier, or raise `NotFoundError` when none
matches. -/
def mixinGetById (fr : FetchOracle) (prepare : List Nat → Query)
    (identifier : List Nat) : Except PyError Rec :=
  let st := mixinFetchState fr prepare identifier
  if st.number_of_results = some 0 then
    .error .notFoundError
  else
    match findByIdentifier st.records identifier with
    | some r => .ok r
    | none => .error .notFoundError

/-! ## The `Field` serialization engine (`fields.py`)

A field instance carries a subject node, an RDF class, the registered
subfield list `_subfields` (triples of attribute name, RDF property and
datatype *name*, looked up in the module-level `DATATYPES` dict), and its
attribute values.  `getattr(self, attrname, None)` is modelled as a total
function from attribute names to Python values. -/

/-- The Python values that can sit in a field attribute in the modelled
scenarios: `None`, strings, booleans, and integers (any non-matching
value). -/
inductive PyValue where
  | vNone
  | vStr (s : String)
  | vBool (b : Bool)
  | vInt (n : Int)
  deriving DecidableEq, Repr

/-- The `input_type` entries occurring in `DATATYPES`: `str` and `bool`. -/
inductive InputType where
  | tStr
  | tBool
  deriving DecidableEq, Repr

/-- Model of Python's `isinstance(value, input_type)` for the types used in
`DATATYPES`. -/
def isInstanceOf : PyValue → InputType → Bool
  | .vStr _, .tStr => true
  | .vBool _, .tBool => true
  | _, _ => false

/-- The four datatypes defined in the module-level `DATATYPES` dict. -/
inductive Datatype where
  | dString
  | dBoolean
  | dEdtf
  | dUriref
  deriving DecidableEq, Repr

/-- The `input_type` entry of a datatype. -/
def Datatype.input_type : Datatype → InputType
  | .dString => .tStr
  | .dBoolean => .tBool
  | .dEdtf => .tStr
  | .dUriref => .tStr

/-- The EDTF datatype IRI used by the `edtf` converter. -/
def edtfDatatypeIri : List Nat := strBytes "http://id.loc.gov/datatypes/edtf"

/-- The `converter` entry of a datatype, applied to a value that passed the
`isinstance` check (other values are never converted by the source). -/
def Datatype.convert : Datatype → PyValue → Node
  | .dString, .vStr s => .litStr s
  | .dBoolean, .vBool b => .litBool b
  | .dEdtf, .vStr s => .litTyped s edtfDatatypeIri
  | .dUriref, .vStr s => .uri (strBytes s)
  | _, _ => .litStr ""

/-- Model of the module-level `DATATYPES` dict: maps a datatype name to its
definition, or nothing when the name is unknown (in which case the
subscript `DATATYPES[datatype]` raises `KeyError`). -/
def DATATYPES : String → Option Datatype
  | "string" => some .dString
  | "boolean" => some .dBoolean
  | "edtf" => some .dEdtf
  | "uriref" => some .dUriref
  | _ => none

/-- A subfield registration: `(attribute name, RDF property, datatype
name)`. -/
abbrev Subfield := String × Node × String

/-- A `Field` instance. -/
structure FieldM where
  subject_node : Node
  rdf_class : Node
  subfields : List Subfield
  attrs : String → PyValue

/-- The RDF vocabulary terms used by the model, named by their source
namespace. -/
def RDF_type : Node := .uri (strBytes "http://www.w3.org/1999/02/22-rdf-syntax-ns#type")

/-- A term of the `EDPOPREC` namespace
(`https://dhstatic.hum.uu.nl/edpop-records/latest/`). -/
def EDPOPREC (term : String) : Node :=
  .uri (strBytes ("https://dhstatic.hum.uu.nl/edpop-records/latest/" ++ term))

/-- A term of the `schema.org` namespace (rdflib's `SDO`). -/
def SDO (term : String) : Node :=
  .uri (strBytes ("https://schema.org/" ++ term))

/-- The subfield list installed by `Field.__init__`. -/
def baseSubfields : List Subfield :=
  [("original_text", EDPOPREC "originalText", "string"),
   ("summary_text", EDPOPREC "summaryText", "string"),
   ("unknown", EDPOPREC "unknown", "boolean"),
   ("authority_record", EDPOPREC "authorityRecord", "uriref")]

/-- The loop body of `Field.to_graph` over the subfield list.  `None`
values are skipped; an unknown datatype name raises `KeyError` (the
source wraps the dict subscript in `try ... except ValueError`, and a
failing dict subscript raises `KeyError`, which that clause does not
catch); a value failing the `isinstance` check raises `FieldError`;
otherwise the converted triple is added. -/
def processSubfields (f : FieldM) : List Subfield → Except PyError (List Triple)
  | [] => .ok []
  | (attrname, propref, datatype) :: rest =>
      let value := f.attrs attrname
      if value = .vNone then
        processSubfields f rest
      else
        match DATATYPES datatype with
        | none => .error .keyError
        | some td =>
            if isInstanceOf value td.input_type then
              (processSubfields f rest).map
                (fun triples => (f.subject_node, propref, td.convert value) :: triples)
            else
              .error .fieldError

/-- Model of `Field.to_graph`: one `rdf:type` triple for the field's RDF
class, then one triple per populated declared subfield; any exception
raised while processing subfields aborts the whole serialization, so no
graph at all is returned in that case. -/
def fieldToGraph (f : FieldM) : Except PyError Graph :=
  (processSubfields f f.subfields).map
    (fun triples => (f.subject_node, RDF_type, f.rdf_class) :: triples)

/-! ## `Record` subject identity (`record.py`)

A record's serialization-relevant state: the `identifier` attribute
(`Optional[str]`, and Python truthiness makes the empty string count as
unset) and the `_bnode` cache used by the `subject_node` property.  The
owning reader class contributes only its `IRI_PREFIX` here.

`BNode()` mints a globally fresh blank-node label; we model the fresh
label as an explicit argument, so that "`subject_node` never mints a new
node on a second access" becomes: the result of a second call does not
depend on the fresh label supplied to it. -/

/-- The `subject_node`-relevant state of a `Record` instance. -/
structure RecordState where
  identifier : Option (List Nat)
  bnode : Option Nat
  deriving DecidableEq

/-- Model of the `Record.iri` property: `from_reader.identifier_to_iri(
identifier)` when `identifier` is truthy (set and non-empty), else
`None`.  A `ReaderError` from `identifier_to_iri` propagates. -/
def recordIri (iriPrefix : Option (List Nat)) (r : RecordState) :
    Except PyError (Option (List Nat)) :=
  match r.identifier with
  | some id =>
      if id = [] then .ok none
      else (identifier_to_iri iriPrefix id).map some
  | none => .ok none

/-- Model of the `Record.subject_node` property: `URIRef(iri)` when the
IRI is available; otherwise the cached `_bnode`, minting (and caching) a
fresh blank node only when the cache is empty.  `fresh` is the label
`BNode()` would mint on this call. -/
def recordSubjectNode (iriPrefix : Option (List Nat)) (fresh : Nat)
    (r : RecordState) : Except PyError (Node × RecordState) :=
  (recordIri iriPrefix r).map (fun iri? =>
    match iri? with
    | some iri => (.uri iri, r)
    | none =>
        match r.bnode with
        | some k => (.bnode k, r)
        | none => (.bnode fresh, { r with bnode := some fresh }))

/-! ## Field subject IRIs bound to a record

The repository's tests exercise `Field.iri`, `Record.add_field`,
`Record.get_first_field` and `Record.bind_all_fields`, but the code
implementing them is not present under the source tree (the `Field` class
there only ever assigns a fresh `BNode()` subject).  The derivation is
therefore modelled from the spec. -/

/-- Modelled from the spec: the content digest entering a bound field's
subject IRI ("a content hash of its value").  The spec requires differing
content to yield differing nodes, so the digest is modelled as an
injective encoding of the field's content. -/
def contentHash (content : String) : List Nat := strBytes content

/-- Modelled from the spec: the missing `Record.bind_all_fields` /
`Field.iri` code.  A field bound into a parent record that has an IRI gets
"a deterministic IRI derived from the parent record's IRI, the field's
attribute name, and a content hash of its value". -/
def fieldSubjectIri (recordIriBytes : List Nat) (attrName : String)
    (content : String) : List Nat :=
  recordIriBytes ++ [35] ++ strBytes attrName ++ [35] ++ contentHash content

/-- Modelled from the spec: the subject node under which a bound field is
serialized in its parent record's graph. -/
def boundFieldSubject (recordIriBytes : List Nat) (attrName : String)
    (content : String) : Node :=
  .uri (fieldSubjectIri recordIriBytes attrName content)

/-! ## `Reader.catalog_to_graph` (class-level catalog metadata)

The classmethod reads only class attributes (`CATALOG_URIREF`,
`READERTYPE`, `SHORT_NAME`, `DESCRIPTION`), never instance state; the
model therefore takes only a class-configuration value. -/

/-- The class-level attributes read by `catalog_to_graph`. -/
structure ReaderClassCfg where
  catalog_uriref : Option (List Nat)
  readertype : Option String
  short_name : Option String
  description : Option String

/-- The module-level constant `BIOGRAPHICAL`. -/
def BIOGRAPHICAL : String := "biographical"

/-- The module-level constant `BIBLIOGRAPHICAL`. -/
def BIBLIOGRAPHICAL : String := "bibliographical"

/-- The segment after the last `/`, modelling `s.split("/")[-1]`. -/
def lastSegment (u : List Nat) : List Nat :=
  u.foldl (fun acc b => if b = 47 then [] else acc ++ [b]) []

/-- Model of `Reader.get_catalog_slug`: the last `/`-separated segment of
`CATALOG_URIREF`, or nothing when `CATALOG_URIREF` is falsy. -/
def getCatalogSlug (cfg : ReaderClassCfg) : Option (List Nat) :=
  match cfg.catalog_uriref with
  | some u => if u = [] then none else some (lastSegment u)
  | none => none

/-- Python string equality `READERTYPE == BIOGRAPHICAL` etc., lifted over
`Optional[str]` (`None == str` is false). -/
def optStrEq (a : Option String) (b : String) : Bool :=
  match a with
  | some s => s = b
  | none => false

/-- Model of `Reader.catalog_to_graph`: raises `ReaderError` when
`CATALOG_URIREF` is falsy (unset); otherwise emits the catalog's
`rdf:type` triple (the class chosen from `READERTYPE`), then `SDO.name`,
`SDO.description` and `SDO.identifier` triples when available. -/
def catalogToGraph (cfg : ReaderClassCfg) : Except PyError Graph :=
  match cfg.catalog_uriref with
  | none => .error .readerError
  | some u =>
      if u = [] then .error .readerError
      else
        let rdfclass : Node :=
          if optStrEq cfg.readertype BIOGRAPHICAL then
            EDPOPREC "BiographicalCatalog"
          else if optStrEq cfg.readertype BIBLIOGRAPHICAL then
            EDPOPREC "BibliographicalCatalog"
          else
            EDPOPREC "Catalog"
        let g0 : Graph := [(.uri u, RDF_type, rdfclass)]
        let g1 : Graph := g0 ++
          (match cfg.short_name with
           | some n => [((.uri u : Node), SDO "name", (.litStr n : Node))]
           | none => [])
        let g2 : Graph := g1 ++
          (match cfg.description with
           | some d => [((.uri u : Node), SDO "description", (.litStr d : Node))]
           | none => [])
        let g3 : Graph := g2 ++
          (match getCatalogSlug cfg with
           | some slug => [((.uri u : Node), SDO "identifier",
               (.litStr (String.mk (slug.map Char.ofNat)) : Node))]
           | none => [])
        .ok g3

/-! ## Concrete states and stubs used to evaluate the model

These mirror the stub readers of the repository's own test suite
(`SimpleReader` yields 20 items, identifiers `"0"`, `"1"`, ...). -/

/-- A reader state after a first fetch against a 20-item catalog, in which
index 5 happens not to be populated (the `records` dict is sparse and may
contain gaps). -/
def partialFetchState : ReaderState :=
  { records := [(0, ⟨some [48], 0⟩), (1, ⟨some [49], 1⟩)],
    number_of_results := some 20,
    prepared_query := some [116],
    fetch_position := 2 }

/-- A `fetch_range` stub that populates exactly the first index of the
requested range with a synthetic record, as `SimpleReader.fetch_range`
would for a singleton range. -/
def providingOracle : FetchOracle := fun st rng =>
  ({ st with
     records := st.records ++ [(rng.start, ⟨some [48], rng.start⟩)],
     number_of_results := some 20 }, rng)

/-- An exhausted reader state: fetching has started and all (one) results
have been fetched. -/
def exhaustedState : ReaderState :=
  { records := [(0, ⟨some [48], 0⟩)],
    number_of_results := some 1,
    prepared_query := some [116],
    fetch_position := 1 }

/-- A `fetch_range` stub that reports zero results, as the repository's
test stub does for the query "nonematching". -/
def zeroResultsOracle : FetchOracle := fun st rng =>
  ({ st with number_of_results := some 0 }, ⟨rng.start, rng.start⟩)

/-- A `fetch_range` stub that returns two records, neither carrying the
requested identifier, as the repository's test stub does for the query
"manymatching". -/
def twoMismatchedOracle : FetchOracle := fun st _ =>
  ({ st with
     records := [(0, ⟨none, 0⟩), (1, ⟨none, 1⟩)],
     number_of_results := some 2 }, ⟨0, 2⟩)

/-- A `fetch_range` stub that returns a page of two records in which the
second one carries the requested identifier `"1"`. -/
def pageOracle : FetchOracle := fun st _ =>
  ({ st with
     records := [(0, ⟨some [48], 0⟩), (1, ⟨some [49], 1⟩)],
     number_of_results := some 2 }, ⟨0, 2⟩)

/-- The field of the repository's own test
(`tests/test_field.py::TestField::test_to_graph`): a base `Field` whose
`unknown` subfield — declared with datatype `boolean` — holds the string
`'other value'`. -/
def mismatchedField : FieldM :=
  { subject_node := .bnode 0,
    rdf_class := EDPOPREC "Field",
    subfields := baseSubfields,
    attrs := fun a =>
      if a = "original_text" then .vStr "Dit is een boektitel"
      else if a = "unknown" then .vStr "other value"
      else .vNone }

/-- The field of the same test a few lines later: a subfield registered
with the nonexistent datatype name `'othertype'` and a non-`None` value. -/
def unknownDatatypeField : FieldM :=
  { subject_node := .bnode 0,
    rdf_class := EDPOPREC "Field",
    subfields := baseSubfields ++ [("other", EDPOPREC "other", "othertype")],
    attrs := fun a =>
      if a = "original_text" then .vStr "Dit is een boektitel"
      else if a = "other" then .vStr "text"
      else .vNone }

/-! ## Helper lemmas -/

theorem isSafeByte_ne_37 {b : Nat} (h : isSafeByte b = true) : b ≠ 37 := by
  intro hb
  subst hb
  simp [isSafeByte] at h

theorem hexUpper_isHexByte {d : Nat} (h : d < 16) :
    isHexByte (hexUpper d) = true := by
  interval_cases d <;> decide

theorem hexVal_hexUpper {d : Nat} (h : d < 16) : hexVal (hexUpper d) = d := by
  interval_cases d <;> decide

theorem unquoteBytes_cons_ne {b : Nat} (hb : b ≠ 37) (l : List Nat) :
    unquoteBytes (b :: l) = b :: unquoteBytes l := by
  match l with
  | [] => rfl
  | [c] => rfl
  | c :: d :: rest => rw [unquoteBytes, if_neg hb]

theorem unquoteBytes_escape {h1 h2 : Nat} (hh1 : isHexByte h1 = true)
    (hh2 : isHexByte h2 = true) (l : List Nat) :
    unquoteBytes (37 :: h1 :: h2 :: l)
      = (16 * hexVal h1 + hexVal h2) :: unquoteBytes l := by
  rw [unquoteBytes, if_pos rfl, if_pos (by rw [hh1, hh2]; rfl)]

/-- Decoding is a left inverse of encoding on byte strings. -/
theorem unquote_quote (s : List Nat) (hs : ∀ b ∈ s, b < 256) :
    unquoteBytes (quoteBytes s) = s := by
  induction s with
  | nil => rfl
  | cons b rest ih =>
      have hb : b < 256 := hs b (List.mem_cons_self b rest)
      have hrest : ∀ x ∈ rest, x < 256 := fun x hx => hs x (List.mem_cons_of_mem b hx)
      by_cases hsafe : isSafeByte b = true
      · have hq : quoteBytes (b :: rest) = b :: quoteBytes rest := by
          rw [quoteBytes, if_pos hsafe, List.singleton_append]
        rw [hq, unquoteBytes_cons_ne (isSafeByte_ne_37 hsafe), ih hrest]
      · have hdiv : b / 16 < 16 := by omega
        have hmod : b % 16 < 16 := Nat.mod_lt _ (by omega)
        have hq : quoteBytes (b :: rest)
            = 37 :: hexUpper (b / 16) :: hexUpper (b % 16) :: quoteBytes rest := by
          rw [quoteBytes, if_neg hsafe]; rfl
        rw [hq, unquoteBytes_escape (hexUpper_isHexByte hdiv) (hexUpper_isHexByte hmod),
          hexVal_hexUpper hdiv, hexVal_hexUpper hmod, ih hrest]
        congr 1
        omega

/-- Encoding is injective on byte strings. -/
theorem quoteBytes_injOn {s t : List Nat} (hs : ∀ b ∈ s, b < 256)
    (ht : ∀ b ∈ t, b < 256) (h : quoteBytes s = quoteBytes t) : s = t := by
  have := congrArg unquoteBytes h
  rwa [unquote_quote s hs, unquote_quote t ht] at this

theorem isPrefixOf_append (p x : List Nat) : p.isPrefixOf (p ++ x) = true := by
  rw [List.isPrefixOf_iff_prefix]
  exact List.prefix_append p x

theorem strBytes_injective {s t : String} (h : strBytes s = strBytes t) :
    s = t := by
  unfold strBytes at h
  have hchar : Function.Injective Char.toNat := fun a b hab =>
    Char.eq_of_val_eq (UInt32.ext hab)
  have hdata : s.data = t.data := List.map_injective_iff.mpr hchar h
  cases s; cases t
  exact congrArg String.mk hdata

/-! ## The claims -/

/-- Claim C5: for every reader class whose `IRI_PREFIX` is a string and
every non-empty identifier `s` (a byte string), `iri_to_identifier
(identifier_to_iri s) = s`; both directions raise `ReaderError` when
`IRI_PREFIX` is not a string, and `iri_to_identifier` raises
`ReaderError` when the IRI does not start with `IRI_PREFIX`. -/
theorem claim_c5_identifier_iri_round_trip :
    (∀ (p s : List Nat), s ≠ [] → (∀ b ∈ s, b < 256) →
      ∀ iri, identifier_to_iri (some p) s = .ok iri →
        iri_to_identifier (some p) iri = .ok s) ∧
    (∀ s, identifier_to_iri none s = .error .readerError) ∧
    (∀ iri, iri_to_identifier none iri = .error .readerError) ∧
    (∀ (p iri : List Nat), p.isPrefixOf iri = false →
      iri_to_identifier (some p) iri = .error .readerError) := by
  refine ⟨?_, fun _ => rfl, fun _ => rfl, ?_⟩
  · intro p s _ hs iri hiri
    have hi : p ++ quoteBytes s = iri := Except.ok.inj hiri
    subst hi
    simp only [iri_to_identifier, isPrefixOf_append, if_true, List.drop_left,
      unquote_quote s hs]
  · intro p iri h
    simp [iri_to_identifier, h]

/-- Witness for C5 at a concrete input: prefix `"h"` (byte 104) and
identifier `" "` (byte 32, which percent-encodes to `%20`). -/
theorem claim_c5_witness :
    iri_to_identifier (some [104]) [104, 37, 50, 48] = .ok [32] :=
  claim_c5_identifier_iri_round_trip.1 [104] [32] (by decide) (by decide)
    [104, 37, 50, 48] rfl

/-- Claim C6: in the exhausted state, `fetch` returns `range(0)` and
leaves the state untouched; since the result does not depend on the
`fetch_range` oracle `fr` quantified here, `fetch_range` is not
invoked. -/
theorem claim_c6_fetch_exhausted_noop (fr : FetchOracle) (st : ReaderState)
    (number : Option Nat) (h : st.fetching_exhausted) :
    ReaderState.fetch fr st number = (Rng.zero, st) := by
  unfold ReaderState.fetch
  rw [if_pos h]

/-- Witness for C6: a concrete exhausted state and a concrete oracle. -/
theorem claim_c6_witness :
    ReaderState.fetch (fun st rng => (st, rng)) exhaustedState (some 3)
      = (Rng.zero, exhaustedState) :=
  claim_c6_fetch_exhausted_noop _ exhaustedState (some 3) (by decide)

/-- Claim C1 (code bug): `Reader.get` fetches only when
`number_of_results <= index`, i.e. exactly when the index is provably out
of range — the opposite of the claim (and of the code's own comment).  At
the failing input — a reader with `number_of_results = 20` whose sparse
`records` lacks index 5 — `get(5, allow_fetching=True)` raises
`NotFoundError` without invoking `fetch_range` (the result does not
depend on the oracle `fr`), although `5 < 20`; while for the provably
out-of-range index 25 the code does delegate to `fetch_range`. -/
theorem claim_c1_get_inverted_range_check :
    (∀ fr : FetchOracle,
      ReaderState.get fr partialFetchState 5 true
        = (.error .notFoundError, partialFetchState)) ∧
    (ReaderState.get providingOracle partialFetchState 25 true).1
      = .ok ⟨some [48], 25⟩ :=
  ⟨fun _ => rfl, rfl⟩

/-- Counterexample for C8 at a concrete input: after a fetch has consumed
the prepared query (`number_of_results` is set in `partialFetchState`),
`set_query` neither fails nor leaves `prepared_query` unchanged — it
silently replaces it. -/
theorem claim_c8_counterexample :
    (partialFetchState.set_query [98]).prepared_query
      ≠ partialFetchState.prepared_query := by
  decide

/-- Claim C8 as amended: `prepare_query` and `set_query` unconditionally
overwrite `prepared_query` (and touch nothing else), even after a fetch
has consumed the query; the base `Reader` never fails on re-querying and
does not preserve the old query. -/
theorem claim_c8_amended_silent_replacement (st : ReaderState) (q : Query)
    (transform : List Nat → Query) (raw : List Nat) :
    (st.set_query q).prepared_query = some q ∧
    (st.set_query q).records = st.records ∧
    (st.set_query q).number_of_results = st.number_of_results ∧
    (st.set_query q).fetch_position = st.fetch_position ∧
    (ReaderState.prepare_query transform st raw).prepared_query
      = some (transform raw) :=
  ⟨rfl, rfl, rfl, rfl, rfl⟩

theorem findByIdentifier_first (pre : List (Nat × Rec)) (k : Nat) (r : Rec)
    (rest : List (Nat × Rec)) (id : List Nat)
    (hpre : ∀ p ∈ pre, p.snd.identifier ≠ some id)
    (hr : r.identifier = some id) :
    findByIdentifier (pre ++ (k, r) :: rest) id = some r := by
  induction pre with
  | nil =>
      unfold findByIdentifier
      rw [List.nil_append, List.find?_cons_of_pos _ (by simp [hr])]
      rfl
  | cons p pre ih =>
      unfold findByIdentifier at ih ⊢
      rw [List.cons_append,
        List.find?_cons_of_neg _ (by simp [hpre p (List.mem_cons_self p pre)])]
      exact ih fun q hq => hpre q (List.mem_cons_of_mem p hq)

/-- Claim C9: `GetByIdBasedOnQueryMixin.get_by_id` builds a fresh reader,
sets the adapter-supplied list query, performs one `fetch()` (all of which
is packaged in `mixinFetchState`), raises `NotFoundError` when the fetch
reports zero results or when the requested identifier is absent from the
returned page, and otherwise returns the first fetched record (in
`records.values()` order) carrying the requested identifier. -/
theorem claim_c9_mixin_get_by_id (fr : FetchOracle)
    (prepare : List Nat → Query) (id : List Nat) :
    ((mixinFetchState fr prepare id).number_of_results = some 0 →
      mixinGetById fr prepare id = .error .notFoundError) ∧
    (findByIdentifier (mixinFetchState fr prepare id).records id = none →
      mixinGetById fr prepare id = .error .notFoundError) ∧
    (∀ pre k r rest,
      (mixinFetchState fr prepare id).records = pre ++ (k, r) :: rest →
      (∀ p ∈ pre, p.snd.identifier ≠ some id) →
      r.identifier = some id →
      (mixinFetchState fr prepare id).number_of_results ≠ some 0 →
      mixinGetById fr prepare id = .ok r) := by
  refine ⟨?_, ?_, ?_⟩
  · intro h
    unfold mixinGetById
    rw [if_pos h]
  · intro h
    unfold mixinGetById
    by_cases h0 : (mixinFetchState fr prepare id).number_of_results = some 0
    · rw [if_pos h0]
    · rw [if_neg h0, h]
  · intro pre k r rest hsplit hpre hr h0
    unfold mixinGetById
    rw [if_neg h0, hsplit, findByIdentifier_first pre k r rest id hpre hr]

/-- Witness for C9: the spec's two stub scenarios (zero results for the
query "nonematching", two non-matching records for "manymatching") plus a
positive page in which the second record matches. -/
theorem claim_c9_witness :
    mixinGetById zeroResultsOracle (fun s => s) [110] = .error .notFoundError ∧
    mixinGetById twoMismatchedOracle (fun s => s) [109] = .error .notFoundError ∧
    mixinGetById pageOracle (fun s => s) [49] = .ok ⟨some [49], 1⟩ := by
  exact ⟨(claim_c9_mixin_get_by_id zeroResultsOracle (fun s => s) [110]).1 rfl,
    (claim_c9_mixin_get_by_id twoMismatchedOracle (fun s => s) [109]).2.1 rfl,
    (claim_c9_mixin_get_by_id pageOracle (fun s => s) [49]).2.2
      [(0, ⟨some [48], 0⟩)] 1 ⟨some [49], 1⟩ [] rfl (by decide) rfl (by decide)⟩

theorem processSubfields_append (f : FieldM) (l₁ l₂ : List Subfield) :
    processSubfields f (l₁ ++ l₂)
      = (processSubfields f l₁).bind
          (fun g => (processSubfields f l₂).map (fun h => g ++ h)) := by
  induction l₁ with
  | nil =>
      cases hp : processSubfields f l₂ <;>
        simp [processSubfields, hp, Except.bind, Except.map]
  | cons sf rest ih =>
      obtain ⟨a, prop, dt⟩ := sf
      by_cases hnone : f.attrs a = .vNone
      · simp only [List.cons_append, processSubfields, List.append_eq,
          if_pos hnone, ih]
      · cases hdt : DATATYPES dt with
        | none =>
            simp only [List.cons_append, processSubfields, List.append_eq,
              if_neg hnone, hdt]
            rfl
        | some td =>
            by_cases hinst : isInstanceOf (f.attrs a) td.input_type = true
            · simp only [List.cons_append, processSubfields, List.append_eq,
                if_neg hnone, hdt, hinst, if_true, ih]
              cases hr : processSubfields f rest <;>
                cases hl : processSubfields f l₂ <;>
                  simp [hr, hl, Except.bind, Except.map]
            · simp only [List.cons_append, processSubfields, List.append_eq,
                if_neg hnone, hdt, if_neg hinst]
              rfl

/-- Claim C7: when the registered subfield list splits as `pre ++
(mismatching subfield) :: rest`, where every subfield of `pre` serializes
successfully and the mismatching subfield holds a non-`None` value of a
known datatype that fails the `isinstance` check, `to_graph()` fails with
`FieldError`; because the result is an error, no graph — in particular no
partial emission for that subfield — is returned, and the error is raised
at the first mismatching subfield regardless of what follows it. -/
theorem claim_c7_field_type_mismatch (f : FieldM) (pre : List Subfield)
    (a : String) (prop : Node) (dt : String) (rest : List Subfield)
    (td : Datatype) (g : List Triple)
    (hsplit : f.subfields = pre ++ (a, prop, dt) :: rest)
    (hpre : processSubfields f pre = .ok g)
    (hval : f.attrs a ≠ .vNone)
    (hdt : DATATYPES dt = some td)
    (hmismatch : isInstanceOf (f.attrs a) td.input_type = false) :
    fieldToGraph f = .error .fieldError := by
  have hhead : processSubfields f ((a, prop, dt) :: rest)
      = .error .fieldError := by
    simp only [processSubfields, if_neg hval, hdt,
      if_neg (by rw [hmismatch]; exact Bool.false_ne_true :
        ¬isInstanceOf (f.attrs a) td.input_type = true)]
  unfold fieldToGraph
  rw [hsplit, processSubfields_append, hpre, hhead]
  rfl

/-- Witness for C7: the field of the repository's own test, whose
`unknown` subfield (datatype `boolean`) holds the string
`'other value'`. -/
theorem claim_c7_witness :
    fieldToGraph mismatchedField = .error .fieldError :=
  claim_c7_field_type_mismatch mismatchedField
    [("original_text", EDPOPREC "originalText", "string"),
     ("summary_text", EDPOPREC "summaryText", "string")]
    "unknown" (EDPOPREC "unknown") "boolean"
    [("authority_record", EDPOPREC "authorityRecord", "uriref")]
    .dBoolean
    [(.bnode 0, EDPOPREC "originalText", .litStr "Dit is een boektitel")]
    rfl rfl (by decide) rfl rfl

/-- Claim C3 (code bug): a registered subfield whose datatype name is
unknown and whose value is non-`None` makes `to_graph()` raise `KeyError`
— not `FieldError` as the claim (and the repository's own test
`tests/test_field.py::TestField::test_to_graph`) requires — because the
source wraps the `DATATYPES[datatype]` dict subscript in `except
ValueError`, which does not catch the `KeyError` the subscript raises. -/
theorem claim_c3_unknown_datatype_raises_keyerror :
    fieldToGraph unknownDatatypeField = .error .keyError ∧
    PyError.keyError ≠ PyError.fieldError :=
  ⟨rfl, by decide⟩

/-- Claim C4: `subject_node` is stable — a second access (with an
arbitrary fresh blank-node label `f2`) returns the same node and leaves
the state unchanged; when `identifier` is set (non-empty), the node is
the IRI `identifier_to_iri(identifier)` and no state is mutated; and
changing the identifier changes the derived IRI. -/
theorem claim_c4_record_subject_determinism :
    (∀ (p : List Nat) (r r1 : RecordState) (f1 f2 : Nat) (v1 : Node),
      recordSubjectNode (some p) f1 r = .ok (v1, r1) →
      recordSubjectNode (some p) f2 r1 = .ok (v1, r1)) ∧
    (∀ (p id : List Nat) (r : RecordState) (f : Nat),
      r.identifier = some id → id ≠ [] →
      recordSubjectNode (some p) f r = .ok (.uri (p ++ quoteBytes id), r)) ∧
    (∀ (p id1 id2 : List Nat), id1 ≠ id2 →
      (∀ b ∈ id1, b < 256) → (∀ b ∈ id2, b < 256) →
      p ++ quoteBytes id1 ≠ p ++ quoteBytes id2) := by
  refine ⟨?_, ?_, ?_⟩
  · intro p r r1 f1 f2 v1 h
    obtain ⟨oid, ob⟩ := r
    cases oid with
    | none =>
        cases ob with
        | none =>
            have h' := Except.ok.inj h
            rw [Prod.mk.injEq] at h'
            obtain ⟨hv, hr⟩ := h'
            subst hv; subst hr
            rfl
        | some k =>
            have h' := Except.ok.inj h
            rw [Prod.mk.injEq] at h'
            obtain ⟨hv, hr⟩ := h'
            subst hv; subst hr
            rfl
    | some id =>
        by_cases hemp : id = []
        · subst hemp
          cases ob with
          | none =>
              have h' := Except.ok.inj h
              rw [Prod.mk.injEq] at h'
              obtain ⟨hv, hr⟩ := h'
              subst hv; subst hr
              rfl
          | some k =>
              have h' := Except.ok.inj h
              rw [Prod.mk.injEq] at h'
              obtain ⟨hv, hr⟩ := h'
              subst hv; subst hr
              rfl
        · simp only [recordSubjectNode, recordIri, identifier_to_iri,
            if_neg hemp, Except.map] at h
          have h' := Except.ok.inj h
          rw [Prod.mk.injEq] at h'
          obtain ⟨hv, hr⟩ := h'
          subst hv; subst hr
          simp only [recordSubjectNode, recordIri, identifier_to_iri,
            if_neg hemp, Except.map]
  · intro p id r f hid hne
    obtain ⟨oid, ob⟩ := r
    simp only at hid
    subst hid
    simp only [recordSubjectNode, recordIri, identifier_to_iri,
      if_neg hne, Except.map]
  · intro p id1 id2 hne h1 h2 heq
    exact hne (quoteBytes_injOn h1 h2 (List.append_cancel_left heq))

/-- Witness for C4: identifier `"1"` (byte 49) under prefix `"h"` (byte
104) yields the IRI `h1`; identifiers `"1"` and `"2"` yield different
IRIs. -/
theorem claim_c4_witness :
    recordSubjectNode (some [104]) 7 ⟨some [49], none⟩
        = .ok (.uri [104, 49], ⟨some [49], none⟩) ∧
    ([104] ++ quoteBytes [49] : List Nat) ≠ [104] ++ quoteBytes [50] :=
  ⟨claim_c4_record_subject_determinism.2.1 [104] [49] ⟨some [49], none⟩ 7
      rfl (by decide),
   claim_c4_record_subject_determinism.2.2 [104] [49] [50] (by decide)
      (by decide) (by decide)⟩

/-- Claim C2 (modelled from the spec, since `Field.iri` and
`Record.bind_all_fields` are exercised by the repository's tests but
absent from the source tree): the subject node of a field bound into a
parent record with an IRI is a deterministic function of the parent
record's IRI, the attribute name and the field's content; the same
content under a different record, or different content, yields a
different node. -/
theorem claim_c2_bound_field_subject_identity :
    (∀ (r : List Nat) (a v : String),
      boundFieldSubject r a v = boundFieldSubject r a v) ∧
    (∀ (r r' : List Nat) (a v : String), r ≠ r' →
      boundFieldSubject r a v ≠ boundFieldSubject r' a v) ∧
    (∀ (r : List Nat) (a v v' : String), v ≠ v' →
      boundFieldSubject r a v ≠ boundFieldSubject r a v') := by
  refine ⟨fun _ _ _ => rfl, ?_, ?_⟩
  · intro r r' a v hne heq
    have h := Node.uri.inj heq
    unfold fieldSubjectIri at h
    simp only [List.append_assoc] at h
    exact hne (List.append_cancel_right h)
  · intro r a v v' hne heq
    have h := Node.uri.inj heq
    unfold fieldSubjectIri at h
    have h1 := List.append_cancel_left h
    unfold contentHash at h1
    exact hne (strBytes_injective h1)

/-- Witness for C2: two record IRIs `"a"` and `"b"`, attribute `title`,
contents `"x"` and `"y"`. -/
theorem claim_c2_witness :
    boundFieldSubject [97] "title" "x" ≠ boundFieldSubject [98] "title" "x" ∧
    boundFieldSubject [97] "title" "x" ≠ boundFieldSubject [97] "title" "y" :=
  ⟨claim_c2_bound_field_subject_identity.2.1 [97] [98] "title" "x" (by decide),
   claim_c2_bound_field_subject_identity.2.2 [97] "title" "x" "y" (by decide)⟩

/-- Claim C10: `catalog_to_graph` raises `ReaderError` when
`CATALOG_URIREF` is unset; when it is set (and non-empty, i.e. truthy),
the returned graph contains the triple `(CATALOG_URIREF, rdf:type, C)`
with `C` chosen from `READERTYPE`.  The model's `catalog_to_graph` is a
function of the class configuration alone, so the result is independent
of any query or fetch state of reader instances by construction. -/
theorem claim_c10_catalog_type_triple :
    (∀ cfg : ReaderClassCfg, cfg.catalog_uriref = none →
      catalogToGraph cfg = .error .readerError) ∧
    (∀ (cfg : ReaderClassCfg) (u : List Nat),
      cfg.catalog_uriref = some u → u ≠ [] →
      ∃ g, catalogToGraph cfg = .ok g ∧
        (Node.uri u, RDF_type,
          if optStrEq cfg.readertype BIOGRAPHICAL then
            EDPOPREC "BiographicalCatalog"
          else if optStrEq cfg.readertype BIBLIOGRAPHICAL then
            EDPOPREC "BibliographicalCatalog"
          else EDPOPREC "Catalog") ∈ g) := by
  constructor
  · intro cfg h
    simp [catalogToGraph, h]
  · intro cfg u hu hne
    simp only [catalogToGraph, hu]
    rw [if_neg hne]
    refine ⟨_, rfl, ?_⟩
    simp [List.mem_append]

/-- Witness for C10: an unset catalog IRI errors; a bibliographical
reader's catalog graph contains the `BibliographicalCatalog` type
triple. -/
theorem claim_c10_witness :
    catalogToGraph ⟨none, none, none, none⟩ = .error .readerError ∧
    ∃ g, catalogToGraph
        ⟨some (strBytes "http://example.com/reader"), some "bibliographical",
         none, none⟩ = .ok g ∧
      (Node.uri (strBytes "http://example.com/reader"), RDF_type,
        EDPOPREC "BibliographicalCatalog") ∈ g := by
  constructor
  · exact claim_c10_catalog_type_triple.1 _ rfl
  · obtain ⟨g, hok, hmem⟩ := claim_c10_catalog_type_triple.2
      ⟨some (strBytes "http://example.com/reader"), some "bibliographical",
       none, none⟩ _ rfl (by decide)
    exact ⟨g, hok, by simpa [optStrEq, BIOGRAPHICAL, BIBLIOGRAPHICAL] using hmem⟩

end EdpopExplorer
